import Mathlib

/-!
Verification of the integrity-check-and-sanitize pipeline
(`salmon/checks/integrity.py`).

The Python module shells out to external tools (`flac`, `metaflac`,
`mp3val`) and to the `mutagen` tag library.  The embedding below keeps the
module's own logic exact and abstracts the external world into explicit
environment records: each subprocess invocation becomes a `ProcResult`
(return code, stdout, stderr), each fallible library call becomes an
`Except String` value (the `.error` case standing for a raised exception
carrying its message text), and the `difflib.SequenceMatcher.ratio`
similarity score - a Python standard-library function, not code of this
repository - is passed in as an arbitrary function `String → String → ℚ`.

Python string primitives used by the module (`in`, `splitlines`, `strip`,
`lower`, `split`, `join`, `split(pat, 1)[1]`) are reimplemented below as
structurally recursive functions over character lists so that every
definition evaluates inside the kernel.
-/

/-- A completed subprocess invocation: a `subprocess.run(...)` result with
`returncode`, captured `stdout` and `stderr`. -/
structure ProcResult where
  returncode : Int
  stdout : String
  stderr : String

/-- Substring occurrence test on character lists. -/
def containsSub (pat : List Char) : List Char → Bool
  | [] => pat.isEmpty
  | c :: rest => pat.isPrefixOf (c :: rest) || containsSub pat rest

lemma containsSub_iff_infix (pat l : List Char) :
    containsSub pat l = true ↔ pat <:+: l := by
  induction l with
  | nil =>
    simp [containsSub, List.infix_nil, List.isEmpty_iff]
  | cons c rest ih =>
    simp [containsSub, List.infix_cons_iff, List.isPrefixOf_iff_prefix, ih]

/-- Python's `needle in haystack` substring test on strings. -/
def pyIn (needle haystack : String) : Bool :=
  containsSub needle.toList haystack.toList

/-- Worker for `pySplitlines`: `cur` holds the current line reversed. -/
def pySplitlinesAux (cur : List Char) : List Char → List String
  | [] => if cur.isEmpty then [] else [String.mk cur.reverse]
  | c :: rest =>
    if c = '\n' then String.mk cur.reverse :: pySplitlinesAux [] rest
    else pySplitlinesAux (c :: cur) rest

/-- Python's `str.splitlines()` restricted to the `"\n"` separator (the
only line separator the wrapped tools emit): a separator ends the current
line, and there is no trailing empty line. -/
def pySplitlines (s : String) : List String :=
  pySplitlinesAux [] s.toList

/-- Drop everything up to and including the first occurrence of `pat`
in a character list. -/
def dropThroughFirst (pat : List Char) : List Char → List Char
  | [] => []
  | c :: rest =>
    if pat.isPrefixOf (c :: rest) then (c :: rest).drop pat.length
    else dropThroughFirst pat rest

/-- Python's `s.split(pat, 1)[1]`: the suffix after the first occurrence
of `pat` (callers guard on `pat in s`). -/
def pySplitAfterFirst (pat s : String) : String :=
  String.mk (dropThroughFirst pat.toList s.toList)

/-- Python's `str.strip()`: remove leading and trailing whitespace. -/
def pyStrip (s : String) : String :=
  String.mk (((s.toList.dropWhile Char.isWhitespace).reverse.dropWhile
    Char.isWhitespace).reverse)

/-- Python's `str.lower()` (ASCII case folding). -/
def pyLower (s : String) : String :=
  String.mk (s.toList.map Char.toLower)

/-- Python's `sep.join(parts)`. -/
def pyJoin (sep : String) : List String → String
  | [] => ""
  | [x] => x
  | x :: y :: rest => x ++ sep ++ pyJoin sep (y :: rest)

/-- Worker for `pySplitWs`: `cur` holds the current word reversed. -/
def pySplitWsAux (cur : List Char) : List Char → List String
  | [] => if cur.isEmpty then [] else [String.mk cur.reverse]
  | c :: rest =>
    if c.isWhitespace then
      if cur.isEmpty then pySplitWsAux [] rest
      else String.mk cur.reverse :: pySplitWsAux [] rest
    else pySplitWsAux (c :: cur) rest

/-- Python's `str.split()` with no argument: split on whitespace runs,
dropping empty pieces. -/
def pySplitWs (s : String) : List String :=
  pySplitWsAux [] s.toList

/-- The fixed marker set of `_extract_important_error_info`. -/
def flacErrorMarkers : List String :=
  ["error code", "ERROR", "FLAC__STREAM_DECODER_ERROR", "state =",
   "MD5 mismatch", "failed", "WARNING"]

/-- Line filter of `_extract_important_error_info`: keep a line when it
contains any marker. -/
def hasErrorMarker (line : String) : Bool :=
  flacErrorMarkers.any (fun p => pyIn p line)

/-- Per-line cleanup of `_extract_important_error_info`: when the line
contains `": "` and `".flac: "`, drop everything through the first
`".flac: "`, then strip surrounding whitespace. -/
def cleanErrorLine (line : String) : String :=
  let c := if pyIn ": " line && pyIn ".flac: " line
           then pySplitAfterFirst ".flac: " line else line
  pyStrip c

/-- The list `important_lines` built by the loop in
`_extract_important_error_info`: marker-bearing lines, in input order,
each cleaned. -/
def importantErrorLines (errorOutput : String) : List String :=
  ((pySplitlines errorOutput).filter hasErrorMarker).map cleanErrorLine

/-- `_extract_important_error_info(error_output)`: the kept lines joined
with a `"- "` bullet per line, or the sentinel when nothing matched. -/
def extractImportantErrorInfo (errorOutput : String) : String :=
  let ls := importantErrorLines errorOutput
  if ls.isEmpty then "Unspecified FLAC integrity error"
  else pyJoin "\n" (ls.map (fun l => "- " ++ l))

/-- Spec-side cleanup, following the claim's words: strip any prefix up to
and including a `".flac: "` token, then trim whitespace. -/
def specCleanLine (line : String) : String :=
  pyStrip (if pyIn ".flac: " line then pySplitAfterFirst ".flac: " line else line)

/-- Spec-side kept lines, following the claim's words: exactly the lines
containing at least one marker, in input order, cleaned. -/
def specImportantLines (text : String) : List String :=
  ((pySplitlines text).filter hasErrorMarker).map specCleanLine

/-- Python's `" ".join(s.lower().split())` normalization used by the
similarity deduplicator. -/
def pyNormalizeWs (s : String) : String :=
  pyJoin " " (pySplitWs (pyLower s))

/-- `_is_message_similar_to_existing(new_message, existing_messages,
similarity_threshold)`.  The `SequenceMatcher(None, a, b).ratio()` library
call is abstracted as the `score` parameter. -/
def isMessageSimilarToExisting (score : String → String → ℚ)
    (newMessage : String) (existingMessages : List String)
    (similarityThreshold : ℚ) : Bool :=
  let normalizedNew := pyNormalizeWs newMessage
  existingMessages.any (fun existing =>
    decide (similarityThreshold ≤ score normalizedNew (pyNormalizeWs existing)))

lemma pyIn_trans (a b s : String) (hab : pyIn a b = true)
    (hbs : pyIn b s = true) : pyIn a s = true := by
  simp only [pyIn, containsSub_iff_infix] at *
  exact hab.trans hbs

lemma cleanErrorLine_eq_spec (l : String) : cleanErrorLine l = specCleanLine l := by
  unfold cleanErrorLine specCleanLine
  cases h : pyIn ".flac: " l with
  | false => simp [h]
  | true =>
    have h2 : pyIn ": " l = true := pyIn_trans ": " ".flac: " l (by decide) h
    simp [h, h2]

/-- Claim C9: the message extractor keeps exactly the marker-bearing lines
in input order, with any prefix up to and including a `".flac: "` token
stripped and whitespace trimmed, and yields the sentinel
`"Unspecified FLAC integrity error"` when no line matches.  (The function
is a pure function of its input text by construction.) -/
theorem extract_important_error_info_spec (text : String) :
    importantErrorLines text = specImportantLines text ∧
    (importantErrorLines text = [] →
      extractImportantErrorInfo text = "Unspecified FLAC integrity error") := by
  constructor
  · unfold importantErrorLines specImportantLines
    exact List.map_congr_left (fun l _ => cleanErrorLine_eq_spec l)
  · intro h
    unfold extractImportantErrorInfo
    simp [h]

theorem extract_important_error_info_spec_witness :
    extractImportantErrorInfo "hello world" = "Unspecified FLAC integrity error" :=
  (extract_important_error_info_spec "hello world").2 (by decide)

/-- Claim C10: against an empty list of existing messages the similarity
deduplicator returns `false`, for every candidate message, every threshold
and every underlying similarity score - so the first diagnostic message
collected for a file is never suppressed. -/
theorem dedup_empty_existing_false (score : String → String → ℚ)
    (newMessage : String) (threshold : ℚ) :
    isMessageSimilarToExisting score newMessage [] threshold = false := rfl

/-- Python's `hex(n)` for a nonnegative integer. -/
def pyHex (n : Nat) : String :=
  "0x" ++ String.mk (Nat.toDigits 16 n)

/-- Environment of `_check_flac_integrity` for one file: the
`flac -wt` invocation, the `flac.FLAC(path).info.md5_signature` header
read, and the `int(get_md5(path), 16)` recomputed audio MD5.  An `.error`
stands for a raised exception with its message text. -/
structure FlacCheckEnv where
  flacWt : Except String ProcResult
  header : Except String Nat
  computed : Except String Nat

/-- First `try` block of `_check_flac_integrity`: run `flac -wt`, report a
non-zero exit, then report warnings found in stderr (deduplicated against
the messages collected so far, not-ok regardless). -/
def flacWtStep (score : String → String → ℚ)
    (w : Except String ProcResult) : Bool × List String :=
  match w with
  | .error e => (false, ["Error running FLAC integrity check: " ++ e])
  | .ok r =>
    let first : Bool × List String :=
      if r.returncode ≠ 0 then
        (false, ["FLAC integrity check failed: \n " ++ extractImportantErrorInfo r.stderr])
      else (true, [])
    if !(r.stderr == "") && pyIn "WARNING" r.stderr then
      let warningMessage := extractImportantErrorInfo r.stderr
      (false,
        if !(isMessageSimilarToExisting score warningMessage first.2 (7/10)) then
          first.2 ++ ["FLAC integrity check warnings: \n " ++ warningMessage]
        else first.2)
    else first

/-- Second `try` block of `_check_flac_integrity`: read the stored MD5
signature, flag the all-zero sentinel, otherwise compare with the
recomputed audio MD5. -/
def flacMd5Step (header computed : Except String Nat) : Bool × List String :=
  match header with
  | .error e => (false, ["Error checking MD5: " ++ e])
  | .ok stored =>
    if stored = 0 then (false, ["No MD5 signature present"])
    else
      match computed with
      | .error e => (false, ["Error checking MD5: " ++ e])
      | .ok calculated =>
        if stored ≠ calculated then
          (false, ["MD5 mismatch - Stored: " ++ pyHex stored ++
            ", Calculated: " ++ pyHex calculated])
        else (true, [])

/-- `_check_flac_integrity(path)`: both blocks run unconditionally; the
verdict is ok only when neither flagged a problem, and the messages are
the two blocks' messages in order. -/
def checkFlacIntegrity (score : String → String → ℚ)
    (env : FlacCheckEnv) : Bool × List String :=
  let s1 := flacWtStep score env.flacWt
  let s2 := flacMd5Step env.header env.computed
  (s1.1 && s2.1, s1.2 ++ s2.2)

/-- Claim C3: a FLAC file whose stored header MD5 signature is the
all-zero sentinel always yields `ok = false` with the message
`"No MD5 signature present"`, whatever the bitstream test step did. -/
theorem flac_zero_md5_always_fails (score : String → String → ℚ)
    (env : FlacCheckEnv) (h : env.header = Except.ok 0) :
    (checkFlacIntegrity score env).1 = false ∧
    "No MD5 signature present" ∈ (checkFlacIntegrity score env).2 := by
  unfold checkFlacIntegrity
  rw [h]
  unfold flacMd5Step
  simp

theorem flac_zero_md5_always_fails_witness :
    (checkFlacIntegrity (fun _ _ => 0)
      ⟨Except.ok ⟨0, "", ""⟩, Except.ok 0, Except.ok 1⟩).1 = false ∧
    "No MD5 signature present" ∈
      (checkFlacIntegrity (fun _ _ => 0)
        ⟨Except.ok ⟨0, "", ""⟩, Except.ok 0, Except.ok 1⟩).2 :=
  flac_zero_md5_always_fails (fun _ _ => 0)
    ⟨Except.ok ⟨0, "", ""⟩, Except.ok 0, Except.ok 1⟩ rfl

lemma pyIn_warning_ne_empty (s : String) (h : pyIn "WARNING" s = true) :
    (s == "") = false := by
  cases hb : s == "" with
  | false => rfl
  | true =>
    have hb' : s = "" := eq_of_beq hb
    subst hb'
    exact absurd h (by decide)

/-- Claim C4: whenever the bitstream tester's stderr contains the token
`"WARNING"`, the FLAC verifier returns `ok = false` - even on a zero exit
code and for every similarity score (so also when the warning message is
suppressed from the message list by deduplication). -/
theorem flac_warning_forces_not_ok (score : String → String → ℚ)
    (env : FlacCheckEnv) (r : ProcResult)
    (hw : env.flacWt = Except.ok r)
    (hwarn : pyIn "WARNING" r.stderr = true) :
    (checkFlacIntegrity score env).1 = false := by
  have hne := pyIn_warning_ne_empty r.stderr hwarn
  unfold checkFlacIntegrity
  rw [hw]
  unfold flacWtStep
  simp [hne, hwarn]

theorem flac_warning_forces_not_ok_witness :
    (checkFlacIntegrity (fun _ _ => 1)
      ⟨Except.ok ⟨0, "", "WARNING: lost sync"⟩, Except.ok 1, Except.ok 1⟩).1 = false :=
  flac_warning_forces_not_ok (fun _ _ => 1)
    ⟨Except.ok ⟨0, "", "WARNING: lost sync"⟩, Except.ok 1, Except.ok 1⟩
    ⟨0, "", "WARNING: lost sync"⟩ rfl (by decide)

/-- `_check_mp3_integrity(path)`: run `mp3val -si`, record stderr on a
non-zero exit; when the whole stdout contains any of `"WARNING"`,
`"ERROR"`, `"INFO"`, record every stdout line (each prefixed with two
spaces) and mark not-ok.  The exception handler only logs, so a raised
exception yields `(false, [])`. -/
def checkMp3Integrity (run : Except String ProcResult) : Bool × List String :=
  match run with
  | .error _ => (false, [])
  | .ok r =>
    let first : Bool × List String :=
      if r.returncode ≠ 0 then (false, ["  " ++ r.stderr]) else (true, [])
    if pyIn "WARNING" r.stdout || pyIn "ERROR" r.stdout || pyIn "INFO" r.stdout then
      (false, first.2 ++ (pySplitlines r.stdout).map (fun l => "  " ++ l))
    else first

/-- Counterexample to claim C6: on stdout `"INFO: bad frame\nall good"`
with exit code 0, the MP3 verifier records every stdout line, each
prefixed with two spaces - including `"all good"`, which contains none of
the markers - rather than exactly the marker-bearing lines verbatim. -/
theorem mp3_messages_not_verbatim_counterexample :
    checkMp3Integrity (Except.ok ⟨0, "INFO: bad frame\nall good", ""⟩) =
      (false, ["  INFO: bad frame", "  all good"]) ∧
    (checkMp3Integrity (Except.ok ⟨0, "INFO: bad frame\nall good", ""⟩)).2 ≠
      ["INFO: bad frame"] ∧
    pyIn "WARNING" "all good" = false ∧
    pyIn "ERROR" "all good" = false ∧
    pyIn "INFO" "all good" = false := by
  refine ⟨rfl, by decide, rfl, rfl, rfl⟩

/-- Claim C6 as amended: when the external validator's stdout contains any
of `"WARNING"`, `"ERROR"`, `"INFO"`, the MP3 verifier returns
`ok = false` and records every stdout line, each prefixed with two spaces
(after the stderr entry recorded on a non-zero exit), with no
deduplication. -/
theorem mp3_marker_records_all_lines (run : Except String ProcResult)
    (r : ProcResult) (he : run = Except.ok r)
    (hm : (pyIn "WARNING" r.stdout || pyIn "ERROR" r.stdout ||
      pyIn "INFO" r.stdout) = true) :
    (checkMp3Integrity run).1 = false ∧
    (checkMp3Integrity run).2 =
      (if r.returncode ≠ 0 then ["  " ++ r.stderr] else []) ++
        (pySplitlines r.stdout).map (fun l => "  " ++ l) := by
  subst he
  unfold checkMp3Integrity
  by_cases hrc : r.returncode ≠ 0 <;> simp [hm, hrc]

theorem mp3_marker_records_all_lines_witness :
    (checkMp3Integrity (Except.ok ⟨0, "WARNING x", ""⟩)).1 = false ∧
    (checkMp3Integrity (Except.ok ⟨0, "WARNING x", ""⟩)).2 =
      (if (0 : Int) ≠ 0 then ["  " ++ ""] else []) ++
        (pySplitlines "WARNING x").map (fun l => "  " ++ l) :=
  mp3_marker_records_all_lines (Except.ok ⟨0, "WARNING x", ""⟩)
    ⟨0, "WARNING x", ""⟩ rfl (by decide)

/-- Environment of the full-sanitization branch of `_sanitize_flac`: exit
codes of the three subprocess steps (`flac` re-encode, `metaflac`
block removal, `metaflac` padding).  The `os.rename`/`os.remove` calls are
modelled as succeeding. -/
structure FlacFullSanEnv where
  encodeRc : Int
  mfRemoveRc : Int
  mfPadRc : Int

/-- Outcome of the full-sanitization branch: the returned success flag,
whether the `path + ".corrupted"` backup still exists afterwards, and
which steps were reached before the first raised failure. -/
structure FullSanResult where
  success : Bool
  backupPresent : Bool
  encodeRan : Bool
  backupRemoveRan : Bool
  mfRemoveRan : Bool
  mfPadRan : Bool
deriving DecidableEq

/-- Full-sanitization branch of `_sanitize_flac`: rename the original to
`path + ".corrupted"`, re-encode from the backup; a non-zero encoder exit
raises before `os.remove` so the backup survives; after a successful
encode the backup is removed, then the two `metaflac` steps run, each
raising on a non-zero exit.  Every raise is caught by the surrounding
handler, which returns `False`. -/
def sanitizeFlacFull (env : FlacFullSanEnv) : FullSanResult :=
  if env.encodeRc ≠ 0 then
    ⟨false, true, true, false, false, false⟩
  else if env.mfRemoveRc ≠ 0 then
    ⟨false, false, true, true, true, false⟩
  else if env.mfPadRc ≠ 0 then
    ⟨false, false, true, true, true, true⟩
  else
    ⟨true, false, true, true, true, true⟩

/-- Counterexample to claim C2: when the re-encode succeeds (exit 0) and
the `metaflac` block-removal step exits non-zero, the function returns
`success = false` - a subprocess-step failure - yet the `.corrupted`
backup is NOT left in place: it was already deleted right after the
successful re-encode. -/
theorem full_sanitize_metaflac_failure_removes_backup :
    (sanitizeFlacFull ⟨0, 1, 0⟩).success = false ∧
    (sanitizeFlacFull ⟨0, 1, 0⟩).backupPresent = false := ⟨rfl, rfl⟩

/-- Claim C2 as amended: every subprocess-step failure aborts the
remaining steps and yields `success = false`; when the failing step is the
re-encoder, the `.corrupted` backup is left in place; and the backup is
deleted exactly when the re-encode succeeded (so a later `metaflac`
failure leaves no backup). -/
theorem full_sanitize_backup_safety (env : FlacFullSanEnv) :
    (env.encodeRc ≠ 0 →
      (sanitizeFlacFull env).success = false ∧
      (sanitizeFlacFull env).backupPresent = true ∧
      (sanitizeFlacFull env).backupRemoveRan = false ∧
      (sanitizeFlacFull env).mfRemoveRan = false ∧
      (sanitizeFlacFull env).mfPadRan = false) ∧
    (env.encodeRc = 0 → env.mfRemoveRc ≠ 0 →
      (sanitizeFlacFull env).success = false ∧
      (sanitizeFlacFull env).mfPadRan = false) ∧
    ((env.encodeRc ≠ 0 ∨ env.mfRemoveRc ≠ 0 ∨ env.mfPadRc ≠ 0) →
      (sanitizeFlacFull env).success = false) ∧
    ((sanitizeFlacFull env).backupPresent = false ↔ env.encodeRc = 0) := by
  unfold sanitizeFlacFull
  by_cases h1 : env.encodeRc ≠ 0 <;>
    by_cases h2 : env.mfRemoveRc ≠ 0 <;>
      by_cases h3 : env.mfPadRc ≠ 0 <;>
        simp_all

theorem full_sanitize_backup_safety_witness :
    (sanitizeFlacFull ⟨1, 0, 0⟩).success = false ∧
    (sanitizeFlacFull ⟨1, 0, 0⟩).backupPresent = true :=
  ⟨((full_sanitize_backup_safety ⟨1, 0, 0⟩).1 (by decide)).1,
   ((full_sanitize_backup_safety ⟨1, 0, 0⟩).1 (by decide)).2.1⟩

/-- Environment of `set_md5`: the `flac.FLAC(path)` header read, the
`int(get_md5(path), 16)` recomputation, and the `flac_file.save()` write.
An `.error` stands for a raised exception. -/
structure Md5SanEnv where
  header : Except String Nat
  computed : Except String Nat
  save : Except String Unit

/-- Outcome of `set_md5`: the returned `(success, updated)` pair, whether
a save was attempted, and the stored signature afterwards (`none` when it
is indeterminate because a step raised). -/
structure SetMd5Result where
  success : Bool
  updated : Bool
  saveAttempted : Bool
  storedAfter : Option Nat
deriving DecidableEq

/-- `set_md5(path)`: read the header, recompute the audio MD5, and only
when they differ assign and save the new signature; any raised exception
is caught and yields `(False, False)`. -/
def set_md5 (env : Md5SanEnv) : SetMd5Result :=
  match env.header with
  | .error _ => ⟨false, false, false, none⟩
  | .ok stored =>
    match env.computed with
    | .error _ => ⟨false, false, false, some stored⟩
    | .ok calculated =>
      if stored ≠ calculated then
        match env.save with
        | .ok _ => ⟨true, true, true, some calculated⟩
        | .error _ => ⟨false, false, true, none⟩
      else ⟨true, false, false, some stored⟩

/-- `_sanitize_flac(path, md5_only)`: with `md5_only` and a `.flac`
extension, only `set_md5` runs (no backup, no subprocess step) and its
success flag is returned; otherwise the full-sanitization branch runs. -/
def sanitizeFlac (ext : String) (md5Only : Bool)
    (menv : Md5SanEnv) (fenv : FlacFullSanEnv) : FullSanResult :=
  if md5Only && (pyLower ext == ".flac") then
    ⟨(set_md5 menv).success, false, false, false, false, false⟩
  else sanitizeFlacFull fenv

/-- Claim C5: MD5-only sanitization recomputes the audio MD5; a differing
value overwrites the stored signature and returns success, a matching
value returns success with no write at all - so the result is `true`
independent of any bitstream problem, which stays unresolved. -/
theorem md5_only_sanitize_behavior (menv : Md5SanEnv) (fenv : FlacFullSanEnv)
    (s c : Nat) (hh : menv.header = Except.ok s)
    (hc : menv.computed = Except.ok c) :
    (s = c →
      set_md5 menv = ⟨true, false, false, some s⟩ ∧
      (sanitizeFlac ".flac" true menv fenv).success = true) ∧
    (s ≠ c → menv.save = Except.ok () →
      set_md5 menv = ⟨true, true, true, some c⟩ ∧
      (sanitizeFlac ".flac" true menv fenv).success = true) := by
  have hcond : (true && (pyLower ".flac" == ".flac")) = true := by decide
  constructor
  · intro heq
    have hset : set_md5 menv = ⟨true, false, false, some s⟩ := by
      unfold set_md5
      rw [hh, hc, heq]
      simp
    refine ⟨hset, ?_⟩
    unfold sanitizeFlac
    rw [if_pos hcond, hset]
  · intro hne hsave
    have hset : set_md5 menv = ⟨true, true, true, some c⟩ := by
      unfold set_md5
      rw [hh, hc, hsave]
      simp [hne]
    refine ⟨hset, ?_⟩
    unfold sanitizeFlac
    rw [if_pos hcond, hset]

theorem md5_only_sanitize_behavior_witness :
    set_md5 ⟨Except.ok 5, Except.ok 7, Except.ok ()⟩ =
      ⟨true, true, true, some 7⟩ ∧
    set_md5 ⟨Except.ok 5, Except.ok 5, Except.ok ()⟩ =
      ⟨true, false, false, some 5⟩ :=
  ⟨((md5_only_sanitize_behavior ⟨Except.ok 5, Except.ok 7, Except.ok ()⟩
      ⟨0, 0, 0⟩ 5 7 rfl rfl).2 (by decide) rfl).1,
   ((md5_only_sanitize_behavior ⟨Except.ok 5, Except.ok 5, Except.ok ()⟩
      ⟨0, 0, 0⟩ 5 5 rfl rfl).1 rfl).1⟩

/-- Outcome of the `mutagen` load/save inside `_sanitize_mp3`: it
completes, raises `HeaderNotFoundError`, or raises some other exception. -/
inductive Mp3SanOutcome where
  | ok
  | headerNotFound
  | otherError (msg : String)

/-- `_sanitize_mp3(path)`: rewrite the file via `MP3(path).save()`.  The
`HeaderNotFoundError` handler only logs and falls off the end of the
function, so Python returns `None` (modelled as `none`); the generic
handler returns `False`. -/
def sanitizeMp3 : Mp3SanOutcome → Option Bool
  | .ok => some true
  | .headerNotFound => none
  | .otherError _ => some false

/-- Python truthiness of an `Option Bool` result (`None` is falsy). -/
def pyTruthy : Option Bool → Bool
  | none => false
  | some b => b

/-- Claim C8 is contradicted by the code at the distinguished
"cannot sync to frame" failure: the `HeaderNotFoundError` handler has no
`return` statement, so `_sanitize_mp3` returns `None` there - a falsy
value, but not the boolean `False` the claim (and the other failure
branch) promise. -/
theorem sanitize_mp3_header_not_found_returns_none :
    sanitizeMp3 Mp3SanOutcome.headerNotFound = none ∧
    sanitizeMp3 Mp3SanOutcome.headerNotFound ≠ some false ∧
    pyTruthy (sanitizeMp3 Mp3SanOutcome.headerNotFound) = false ∧
    (∀ m, sanitizeMp3 (Mp3SanOutcome.otherError m) = some false) :=
  ⟨rfl, by decide, rfl, fun _ => rfl⟩

/-- One candidate file as `check_integrity` sees it: its path, its raw
`os.path.splitext(path)[1]` extension, and the environments its
format-specific verifier would observe. -/
structure FileInput where
  path : String
  ext : String
  flacEnv : FlacCheckEnv
  mp3Env : Except String ProcResult

/-- The per-file result dict built by `check_file`. -/
structure FileResult where
  path : String
  success : Bool
  needs_sanitization : Bool
  error_messages : List String
deriving DecidableEq

/-- `check_file(file_path)`: dispatch on the lowercased extension; FLAC
and MP3 run their verifier and flag sanitization when not ok; any other
extension only logs a skipped notice, leaving the initial dict - whose
`success` field is `False` - unchanged. -/
def check_file (score : String → String → ℚ) (f : FileInput) : FileResult :=
  if pyLower f.ext == ".flac" then
    let r := checkFlacIntegrity score f.flacEnv
    ⟨f.path, r.1, !r.1, r.2⟩
  else if pyLower f.ext == ".mp3" then
    let r := checkMp3Integrity f.mp3Env
    ⟨f.path, r.1, !r.1, r.2⟩
  else ⟨f.path, false, false, []⟩

/-- The results dict of `check_integrity`. -/
structure CheckResults where
  checked : Nat
  ok : Nat
  failed : Nat
  needs_sanitization : List String
  error_messages : List (String × List String)
deriving DecidableEq

/-- One iteration of the result-compilation loop in `check_integrity`. -/
def compileStep (acc : CheckResults) (r : FileResult) : CheckResults :=
  if r.success then
    { acc with ok := acc.ok + 1 }
  else if r.needs_sanitization then
    { acc with failed := acc.failed + 1,
               needs_sanitization := acc.needs_sanitization ++ [r.path],
               error_messages := acc.error_messages ++ [(r.path, r.error_messages)] }
  else
    { acc with failed := acc.failed + 1 }

/-- Extension filter of the discovery phase of `check_integrity`: only
`.flac` and `.mp3` files become audio files. -/
def isAudioExt (f : FileInput) : Bool :=
  pyLower f.ext == ".flac" || pyLower f.ext == ".mp3"

/-- `check_integrity(path)`: discover audio files (filtering by
extension), return the zeroed results when none were found, otherwise
check every file and fold the per-file results into the summary, with
`checked` set to the number of processed files up front. -/
def check_integrity (score : String → String → ℚ)
    (inputs : List FileInput) : CheckResults :=
  let audio := inputs.filter isAudioExt
  if audio.isEmpty then ⟨0, 0, 0, [], []⟩
  else
    let prs := audio.map (check_file score)
    prs.foldl compileStep ⟨prs.length, 0, 0, [], []⟩

/-- One file as `sanitize_integrity` sees it: path, raw extension, and the
environments of the applicable sanitizer. -/
structure SanInput where
  path : String
  ext : String
  md5San : Md5SanEnv
  fullSan : FlacFullSanEnv
  mp3San : Mp3SanOutcome

/-- The inner `sanitize_file` of `sanitize_integrity`: dispatch on the
lowercased extension (the dict's `success` entry holds whatever the
sanitizer returned, read back through Python truthiness). -/
def sanitize_file (md5Only : Bool) (f : SanInput) : Bool :=
  if pyLower f.ext == ".mp3" then pyTruthy (sanitizeMp3 f.mp3San)
  else if pyLower f.ext == ".flac" then
    (sanitizeFlac f.ext md5Only f.md5San f.fullSan).success
  else false

/-- The results dict of `sanitize_integrity`. -/
structure SanitizeResults where
  total : Nat
  sanitized : Nat
  failed : Nat
deriving DecidableEq

/-- One iteration of the result-compilation loop in `sanitize_integrity`. -/
def sanitizeStep (acc : SanitizeResults) (success : Bool) : SanitizeResults :=
  if success then { acc with sanitized := acc.sanitized + 1 }
  else { acc with failed := acc.failed + 1 }

/-- `sanitize_integrity(files_to_sanitize, md5_only)`: `total` is the
number of files passed in; an empty list returns at once; otherwise every
file is sanitized and the outcomes are folded into the summary. -/
def sanitize_integrity (files : List SanInput) (md5Only : Bool) :
    SanitizeResults :=
  if files.isEmpty then ⟨files.length, 0, 0⟩
  else (files.map (sanitize_file md5Only)).foldl sanitizeStep ⟨files.length, 0, 0⟩

lemma compileStep_checked (acc : CheckResults) (r : FileResult) :
    (compileStep acc r).checked = acc.checked := by
  unfold compileStep
  by_cases h1 : r.success <;> by_cases h2 : r.needs_sanitization <;> simp [h1, h2]

lemma compileStep_ok_failed (acc : CheckResults) (r : FileResult) :
    (compileStep acc r).ok + (compileStep acc r).failed = acc.ok + acc.failed + 1 := by
  unfold compileStep
  by_cases h1 : r.success <;> by_cases h2 : r.needs_sanitization <;>
    simp [h1, h2] <;> omega

lemma compileFold_checked (rs : List FileResult) (acc : CheckResults) :
    (rs.foldl compileStep acc).checked = acc.checked := by
  induction rs generalizing acc with
  | nil => rfl
  | cons r t ih => rw [List.foldl_cons, ih, compileStep_checked]

lemma compileFold_ok_failed (rs : List FileResult) (acc : CheckResults) :
    (rs.foldl compileStep acc).ok + (rs.foldl compileStep acc).failed =
      acc.ok + acc.failed + rs.length := by
  induction rs generalizing acc with
  | nil => simp
  | cons r t ih =>
    rw [List.foldl_cons, ih, compileStep_ok_failed]
    simp [Nat.add_assoc, Nat.add_comm 1]

lemma sanitizeStep_total (acc : SanitizeResults) (b : Bool) :
    (sanitizeStep acc b).total = acc.total := by
  unfold sanitizeStep
  by_cases h : b <;> simp [h]

lemma sanitizeStep_counts (acc : SanitizeResults) (b : Bool) :
    (sanitizeStep acc b).sanitized + (sanitizeStep acc b).failed =
      acc.sanitized + acc.failed + 1 := by
  unfold sanitizeStep
  by_cases h : b <;> simp [h] <;> omega

lemma sanitizeFold_total (bs : List Bool) (acc : SanitizeResults) :
    (bs.foldl sanitizeStep acc).total = acc.total := by
  induction bs generalizing acc with
  | nil => rfl
  | cons b t ih => rw [List.foldl_cons, ih, sanitizeStep_total]

lemma sanitizeFold_counts (bs : List Bool) (acc : SanitizeResults) :
    (bs.foldl sanitizeStep acc).sanitized + (bs.foldl sanitizeStep acc).failed =
      acc.sanitized + acc.failed + bs.length := by
  induction bs generalizing acc with
  | nil => simp
  | cons b t ih =>
    rw [List.foldl_cons, ih, sanitizeStep_counts]
    simp [Nat.add_assoc, Nat.add_comm 1]

/-- Claim C1: after every run, the check summary satisfies
`checked = ok + failed` and the sanitize summary satisfies
`sanitized + failed = total`, with `total` the number of files passed to
sanitization. -/
theorem check_sanitize_summary_counts (score : String → String → ℚ)
    (inputs : List FileInput) (files : List SanInput) (md5Only : Bool) :
    (check_integrity score inputs).checked =
      (check_integrity score inputs).ok + (check_integrity score inputs).failed ∧
    (sanitize_integrity files md5Only).sanitized +
      (sanitize_integrity files md5Only).failed =
      (sanitize_integrity files md5Only).total := by
  constructor
  · unfold check_integrity
    by_cases h : (inputs.filter isAudioExt).isEmpty
    · rw [if_pos h]
      rfl
    · rw [if_neg h, compileFold_checked, compileFold_ok_failed]
      simp
  · unfold sanitize_integrity
    by_cases h : files.isEmpty
    · rw [if_pos h]
      have h' : files = [] := by simpa using h
      simp [h']
    · rw [if_neg h, sanitizeFold_total, sanitizeFold_counts]
      simp

/-- Counterexample to claim C7: the per-file check on a file with an
unsupported extension returns a result whose `success` field is `False`
(the initial dict is returned unchanged apart from the logged skip
notice), and folding that result into the summary increments `failed` -
so the per-file result reports a failure, not a skip. -/
theorem unsupported_file_counts_failed_counterexample :
    (check_file (fun _ _ => 0)
      ⟨"a.txt", ".txt", ⟨Except.ok ⟨0, "", ""⟩, Except.ok 1, Except.ok 1⟩,
        Except.ok ⟨0, "", ""⟩⟩).success = false ∧
    ([check_file (fun _ _ => 0)
      ⟨"a.txt", ".txt", ⟨Except.ok ⟨0, "", ""⟩, Except.ok 1, Except.ok 1⟩,
        Except.ok ⟨0, "", ""⟩⟩].foldl compileStep ⟨1, 0, 0, [], []⟩).failed = 1 :=
  ⟨rfl, rfl⟩

/-- Claim C7 as amended: a file whose extension is neither `.flac` nor
`.mp3` never reaches the summary because the discovery phase filters it
out - `check_integrity` over any input list equals `check_integrity` over
its supported sublist, so such files do not increment `failed` (nor
`checked` or `ok`); the per-file check itself, were it invoked on such a
file, would return `success = false` with no messages and no
sanitization flag. -/
theorem unsupported_files_filtered_out (score : String → String → ℚ)
    (inputs : List FileInput) (f : FileInput)
    (h1 : (pyLower f.ext == ".flac") = false)
    (h2 : (pyLower f.ext == ".mp3") = false) :
    check_integrity score inputs =
      check_integrity score (inputs.filter isAudioExt) ∧
    check_file score f = ⟨f.path, false, false, []⟩ := by
  constructor
  · unfold check_integrity
    rw [List.filter_filter]
    have : (fun a => isAudioExt a && isAudioExt a) = isAudioExt := by
      funext a
      exact Bool.and_self _
    rw [this]
  · unfold check_file
    rw [h1, h2]
    simp

theorem unsupported_files_filtered_out_witness :
    check_integrity (fun _ _ => 0)
        [⟨"a.txt", ".txt", ⟨Except.ok ⟨0, "", ""⟩, Except.ok 1, Except.ok 1⟩,
          Except.ok ⟨0, "", ""⟩⟩] =
      check_integrity (fun _ _ => 0)
        ([⟨"a.txt", ".txt", ⟨Except.ok ⟨0, "", ""⟩, Except.ok 1, Except.ok 1⟩,
          Except.ok ⟨0, "", ""⟩⟩].filter isAudioExt) ∧
    check_file (fun _ _ => 0)
        ⟨"b.txt", ".txt", ⟨Except.ok ⟨0, "", ""⟩, Except.ok 1, Except.ok 1⟩,
          Except.ok ⟨0, "", ""⟩⟩ =
      ⟨"b.txt", false, false, []⟩ :=
  ⟨(unsupported_files_filtered_out (fun _ _ => 0)
      [⟨"a.txt", ".txt", ⟨Except.ok ⟨0, "", ""⟩, Except.ok 1, Except.ok 1⟩,
        Except.ok ⟨0, "", ""⟩⟩]
      ⟨"b.txt", ".txt", ⟨Except.ok ⟨0, "", ""⟩, Except.ok 1, Except.ok 1⟩,
        Except.ok ⟨0, "", ""⟩⟩ rfl rfl).1,
   (unsupported_files_filtered_out (fun _ _ => 0) []
      ⟨"b.txt", ".txt", ⟨Except.ok ⟨0, "", ""⟩, Except.ok 1, Except.ok 1⟩,
        Except.ok ⟨0, "", ""⟩⟩ rfl rfl).2⟩
